import Mathlib

/-!
Verification development for the USDA Food Data Central tool server
(`server.py`): a shallow embedding of its request mediator, response
formatters and tool handlers, together with theorems about the
properties the specification claims.

Modelling conventions:
* JSON payloads are modelled by the inductive `JVal`; numbers are scaled
  decimals (`DecNum`, value `mant / 10 ^ exp`), which is enough for the
  integers and finite decimals that occur in the data and keeps every
  definition kernel-computable.
* Python dictionary access `d.get(k, default)` becomes `jGetD`; Python
  truthiness becomes `jTruthy` / `optStrTruthy`.
* The process environment and the network are explicit parameters: the
  credential is an `Option String` and the HTTP client is an oracle
  `FdcRequest → NetResult`.  Each operation returns, besides its result,
  the list of HTTP requests it issued, so "no network call" is the
  statement that this list is empty.
* Constant HTTP headers and the constant timeout are not modelled: no
  decision in the program depends on them.
-/

namespace FdcServer

/-- Scaled decimal number: the value `mant / 10 ^ exp`.  An integer `i`
is represented as `⟨i, 0⟩`; the literal `5.2` as `⟨52, 1⟩`. -/
structure DecNum where
  mant : Int
  exp : Nat

def DecNum.ofInt (i : Int) : DecNum := ⟨i, 0⟩

/-- JSON values, as delivered by the upstream API and consumed by the
formatters and handlers. -/
inductive JVal where
  | jnull
  | jbool (b : Bool)
  | jnum (d : DecNum)
  | jstr (s : String)
  | jarr (elems : List JVal)
  | jobj (fields : List (String × JVal))

/-- Render a `DecNum` the way Python renders the corresponding `int` or
`float`: no decimal point for integers, otherwise the digits with the
decimal point inserted `exp` places from the right. -/
def pyNumStr (d : DecNum) : String :=
  if d.exp = 0 then toString d.mant
  else
    let digits := toString d.mant.natAbs
    let digits :=
      if digits.data.length < d.exp + 1 then
        String.mk (List.replicate (d.exp + 1 - digits.data.length) '0') ++ digits
      else digits
    let n := digits.data.length
    (if d.mant < 0 then "-" else "") ++
      String.mk (digits.data.take (n - d.exp)) ++ "." ++
      String.mk (digits.data.drop (n - d.exp))

mutual
/-- Python `repr` of a JSON value (approximate for containers; the
formatters only ever apply it to strings and numbers). -/
def pyRepr : JVal → String
  | .jnull => "None"
  | .jbool b => if b then "True" else "False"
  | .jnum d => pyNumStr d
  | .jstr s => "\x27" ++ s ++ "\x27"
  | .jarr xs => "[" ++ String.intercalate ", " (pyReprList xs) ++ "]"
  | .jobj fs => "\x7b" ++ String.intercalate ", " (pyReprFields fs) ++ "\x7d"

def pyReprList : List JVal → List String
  | [] => []
  | x :: xs => pyRepr x :: pyReprList xs

def pyReprFields : List (String × JVal) → List String
  | [] => []
  | (k, v) :: fs => ("\x27" ++ k ++ "\x27: " ++ pyRepr v) :: pyReprFields fs
end

/-- Python `str` of a JSON value (as used by f-string interpolation). -/
def pyStr : JVal → String
  | .jstr s => s
  | v => pyRepr v

/-- First-match lookup in an object's field list (JSON objects have
unique keys, so this is Python dictionary lookup). -/
def jLookup : List (String × JVal) → String → Option JVal
  | [], _ => none
  | (k, v) :: fs, key => if k = key then some v else jLookup fs key

/-- Python `d.get(k)` (`None` when `d` is not a dictionary never occurs
on the inputs the theorems quantify over). -/
def jGet : JVal → String → Option JVal
  | .jobj fs, key => jLookup fs key
  | _, _ => none

/-- Python `d.get(k, default)`. -/
def jGetD (v : JVal) (key : String) (default : JVal) : JVal :=
  (jGet v key).getD default

/-- Python truthiness of a JSON value. -/
def jTruthy : JVal → Bool
  | .jnull => false
  | .jbool b => b
  | .jnum d => d.mant != 0
  | .jstr s => s != ""
  | .jarr xs => !xs.isEmpty
  | .jobj fs => !fs.isEmpty

/-- Python truthiness of a `str | None` argument. -/
def optStrTruthy : Option String → Bool
  | none => false
  | some s => s != ""

/-- Python `"error" in result`, in the cases a handler can reach:
key membership for dictionaries, element membership for lists,
substring membership for strings. -/
def errKeyIn : JVal → Bool
  | .jobj fs => fs.any (fun p => p.1 == "error")
  | .jarr xs => xs.any (fun v => match v with | .jstr s => s == "error" | _ => false)
  | .jstr s => decide ("error".data <:+: s.data)
  | _ => false

/-- Elements of a JSON array (the handlers only take elements of values
they have checked to be truthy arrays). -/
def asArr : JVal → List JVal
  | .jarr xs => xs
  | _ => []

/-- Uppercase an ASCII letter, as Python `str.upper` does on the method
names that occur here. -/
def pyUpperChar (c : Char) : Char :=
  if 'a' ≤ c ∧ c ≤ 'z' then Char.ofNat (c.toNat - 32) else c

def pyUpper (s : String) : String := String.mk (s.data.map pyUpperChar)

/-- Python `str.strip()`: drop whitespace from both ends. -/
def pyTrim (s : String) : String :=
  String.mk ((s.data.dropWhile Char.isWhitespace).reverse.dropWhile Char.isWhitespace).reverse

def digitsVal : List Char → Option Nat
  | [] => none
  | ds => ds.foldlM (fun acc c => if c.isDigit then some (acc * 10 + (c.toNat - 48)) else none) 0

/-- Python `int(s)`: optional sign, at least one digit, surrounding
whitespace ignored; `none` models the `ValueError`. -/
def pyInt? (s : String) : Option Int :=
  match (pyTrim s).data with
  | '-' :: ds => (digitsVal ds).map (fun n => -(n : Int))
  | '+' :: ds => (digitsVal ds).map (fun n => (n : Int))
  | ds => (digitsVal ds).map (fun n => (n : Int))

def splitCommaAux (cur : List Char) : List Char → List String
  | [] => [String.mk cur.reverse]
  | c :: cs => if c = ',' then String.mk cur.reverse :: splitCommaAux [] cs
               else splitCommaAux (c :: cur) cs

/-- Python `s.split(",")` (never empty: splitting `""` gives `[""]`). -/
def pySplitComma (s : String) : List String := splitCommaAux [] s.data

/-- Python `[int(p.strip()) for p in s.split(",")]`, with `none` for the
`ValueError` raised when any piece fails to parse. -/
def parseIntList (s : String) : Option (List Int) :=
  (pySplitComma s).mapM (fun piece => pyInt? (pyTrim piece))

/-- Python `s in t` for strings: substring occurrence. -/
def strContains (s pat : String) : Prop := pat.data <:+: s.data

instance (s pat : String) : Decidable (strContains s pat) :=
  inferInstanceAs (Decidable (pat.data <:+: s.data))

/-! ## HTTP request mediator (`make_fdc_request`) -/

def FDC_API_BASE : String := "https://api.nal.usda.gov/fdc/v1"

/-- An HTTP request as issued by the mediator: target URL, method,
query parameters (credential included), and JSON body for POST. -/
structure FdcRequest where
  url : String
  method : String
  params : List (String × String)
  body : Option JVal

/-- What the network oracle answers: an HTTP response (status, body
text, parsed JSON body) or a transport-level exception (connection
failure, timeout, body that fails to parse as JSON, ...). -/
inductive NetResult where
  | response (status : Nat) (text : String) (payload : JVal)
  | exn (msg : String)

/-- The error marker the mediator returns: a dictionary with the single
key `error`. -/
def errObj (msg : String) : JVal := .jobj [("error", .jstr msg)]

/-- Python dictionary assignment `d[k] = v` on a parameter list. -/
def dictSet (ps : List (String × String)) (k v : String) : List (String × String) :=
  if ps.any (fun p => p.1 == k) then ps.map (fun p => if p.1 == k then (k, v) else p)
  else ps ++ [(k, v)]

/-- The `try` block of `make_fdc_request` once a request `req` is on the
wire: 2xx yields the parsed payload, any other status yields the
`HTTP <code>: <text>` error marker (httpx `raise_for_status`), and a
transport exception yields the `Request failed: <msg>` marker. -/
def dispatch (net : FdcRequest → NetResult) (req : FdcRequest) : JVal × List FdcRequest :=
  match net req with
  | .response status text payload =>
      if 200 ≤ status ∧ status < 300 then (payload, [req])
      else (errObj ("HTTP " ++ toString status ++ ": " ++ text), [req])
  | .exn msg => (errObj ("Request failed: " ++ msg), [req])

/-- `make_fdc_request(endpoint, method, params, data)` from `server.py`,
with the process credential and the network made explicit.  The second
component of the result is the list of HTTP requests issued. -/
def make_fdc_request (apiKey : Option String) (net : FdcRequest → NetResult)
    (endpoint : String) (method : String) (params : List (String × String))
    (data : Option JVal) : JVal × List FdcRequest :=
  if optStrTruthy apiKey = false then
    (errObj "API key not set. Use set_api_key tool first.", [])
  else
    let url := FDC_API_BASE ++ "/" ++ String.mk (endpoint.data.dropWhile (· = '/'))
    let params := dictSet params "api_key" (apiKey.getD "")
    if pyUpper method = "GET" then
      dispatch net { url := url, method := "GET", params := params, body := none }
    else if pyUpper method = "POST" then
      dispatch net { url := url, method := "POST", params := params, body := data }
    else
      (errObj ("Unsupported HTTP method: " ++ method), [])

/-! ## Response formatters -/

/-- `nutrient.get('nutrient', {}).get('name', 'Unknown')`. -/
def nutrName (n : JVal) : String :=
  pyStr (jGetD (jGetD n "nutrient" (.jobj [])) "name" (.jstr "Unknown"))

/-- `nutrient.get('amount', 0)`. -/
def nutrAmount (n : JVal) : JVal := jGetD n "amount" (.jnum (DecNum.ofInt 0))

/-- `nutrient.get('nutrient', {}).get('unitName', '')`. -/
def nutrUnit (n : JVal) : String :=
  pyStr (jGetD (jGetD n "nutrient" (.jobj [])) "unitName" (.jstr ""))

/-- Python `amount and amount > 0` on a nutrient amount: truthy and
strictly positive (a `DecNum` is positive exactly when its mantissa is). -/
def amountPos (a : JVal) : Bool :=
  jTruthy a && (match a with | .jnum d => decide (0 < d.mant) | _ => false)

/-- One rendered nutrient line `<indent><name>: <amount> <unit>\n`. -/
def nutrientLine (indent : String) (n : JVal) : String :=
  indent ++ nutrName n ++ ": " ++ pyStr (nutrAmount n) ++ " " ++ nutrUnit n ++ "\n"

/-- The nutrient loop shared by the formatters and handlers: append a
line for every entry whose amount is truthy and positive. -/
def nutrientLines (indent : String) : List JVal → String
  | [] => ""
  | n :: ns =>
      (if amountPos (nutrAmount n) = true then nutrientLine indent n else "") ++
      nutrientLines indent ns

/-- `format_food_summary(food)` from `server.py`. -/
def format_food_summary (food : JVal) : String :=
  "Food: " ++ pyStr (jGetD food "description" (.jstr "Unknown")) ++
  "\nFDC ID: " ++ pyStr (jGetD food "fdcId" (.jstr "N/A")) ++
  "\nData Type: " ++ pyStr (jGetD food "dataType" (.jstr "Unknown")) ++
  "\nBrand: " ++ (if jTruthy (jGetD food "brandOwner" .jnull) = true
                  then pyStr (jGetD food "brandOwner" (.jstr "N/A")) else "Generic") ++
  "\nPublished: " ++ pyStr (jGetD food "publishedDate" (.jstr "N/A"))

/-- The part of `format_food_details` built before the nutrition
section: fixed lines, then the optional brand and ingredients lines. -/
def detailsHeader (food : JVal) : String :=
  "Food: " ++ pyStr (jGetD food "description" (.jstr "Unknown")) ++
  "\nFDC ID: " ++ pyStr (jGetD food "fdcId" (.jstr "N/A")) ++
  "\nData Type: " ++ pyStr (jGetD food "dataType" (.jstr "Unknown")) ++
  "\nCategory: " ++ pyStr (jGetD (jGetD food "foodCategory" (.jobj [])) "description" (.jstr "N/A")) ++
  "\n" ++
  (if jTruthy (jGetD food "brandOwner" .jnull) = true
   then "Brand: " ++ pyStr (jGetD food "brandOwner" .jnull) ++ "\n" else "") ++
  (if jTruthy (jGetD food "ingredients" .jnull) = true
   then "Ingredients: " ++ pyStr (jGetD food "ingredients" .jnull) ++ "\n" else "")

/-- `format_food_details(food)` from `server.py`: header, then — when
`foodNutrients` is truthy — the nutrition section over the first 10
entries. -/
def format_food_details (food : JVal) : String :=
  detailsHeader food ++
  (if jTruthy (jGetD food "foodNutrients" .jnull) = true then
    "\nNutritional Information (per 100g):\n" ++
      nutrientLines "  " ((asArr (jGetD food "foodNutrients" .jnull)).take 10)
   else "")

/-! ## Tool handlers -/

def valid_types : List String :=
  ["Foundation", "Branded", "Survey (FNDDS)", "Legacy", "Experimental"]

def invalidDataTypeMsg : String :=
  "Invalid data type. Valid options: " ++ String.intercalate ", " valid_types

/-- `search_foods` after input validation: POST `foods/search`, branch
on the error marker, then render up to 10 summaries. -/
def searchRun (apiKey : Option String) (net : FdcRequest → NetResult)
    (search_data : List (String × JVal)) : String × List FdcRequest :=
  let r := make_fdc_request apiKey net "foods/search" "POST" [] (some (.jobj search_data))
  let result := r.1
  if jTruthy result = false ∨ errKeyIn result = true then
    ("Search failed: " ++ pyStr (jGetD result "error" (.jstr "Unknown error")), r.2)
  else if jTruthy (jGetD result "foods" .jnull) = false then
    ("No foods found for your search query.", r.2)
  else
    let foods := asArr (jGetD result "foods" .jnull)
    let total := match jGet result "totalHits" with
      | some (.jnum d) => d
      | some _ => DecNum.ofInt 0
      | none => DecNum.ofInt foods.length
    let shown := (foods.take 10).map format_food_summary
    let summary := "Found " ++ pyNumStr total ++ " foods. Showing top " ++
      toString shown.length ++ " results:\n\n" ++ String.intercalate "\n---\n" shown
    (if total.mant > (shown.length : Int) * 10 ^ total.exp then
       summary ++ "\n\n... and " ++
         pyNumStr ⟨total.mant - (shown.length : Int) * 10 ^ total.exp, total.exp⟩ ++
         " more results."
     else summary, r.2)

/-- `search_foods(query, data_type, page_size)` from `server.py`. -/
def search_foods (apiKey : Option String) (net : FdcRequest → NetResult)
    (query : String) (data_type : Option String) (page_size : Int) :
    String × List FdcRequest :=
  let base : List (String × JVal) :=
    [("query", .jstr query),
     ("pageSize", .jnum (DecNum.ofInt (min page_size 50))),
     ("pageNumber", .jnum (DecNum.ofInt 1))]
  if optStrTruthy data_type = true then
    if data_type.getD "" ∈ valid_types then
      searchRun apiKey net (base ++ [("dataType", .jarr [.jstr (data_type.getD "")])])
    else (invalidDataTypeMsg, [])
  else searchRun apiKey net base

/-- `get_food_details(fdc_id)` from `server.py`. -/
def get_food_details (apiKey : Option String) (net : FdcRequest → NetResult)
    (fdc_id : Int) : String × List FdcRequest :=
  let r := make_fdc_request apiKey net ("food/" ++ toString fdc_id) "GET" [] none
  if jTruthy r.1 = false ∨ errKeyIn r.1 = true then
    ("Failed to get food details: " ++ pyStr (jGetD r.1 "error" (.jstr "Unknown error")), r.2)
  else (format_food_details r.1, r.2)

/-- `get_food_nutrients` after input validation: GET `food/{id}` with
the optional nutrients filter, then the uncapped nutrient listing. -/
def nutrientsRun (apiKey : Option String) (net : FdcRequest → NetResult)
    (fdc_id : Int) (params : List (String × String)) : String × List FdcRequest :=
  let r := make_fdc_request apiKey net ("food/" ++ toString fdc_id) "GET" params none
  let result := r.1
  if jTruthy result = false ∨ errKeyIn result = true then
    ("Failed to get nutrient data: " ++ pyStr (jGetD result "error" (.jstr "Unknown error")), r.2)
  else
    let info := "Nutrient information for " ++
      pyStr (jGetD result "description" (.jstr "Unknown Food")) ++
      " (FDC ID: " ++ toString fdc_id ++ "):\n\n"
    if jTruthy (jGetD result "foodNutrients" .jnull) = true then
      (info ++ nutrientLines "" (asArr (jGetD result "foodNutrients" .jnull)), r.2)
    else (info ++ "No nutrient data available.", r.2)

/-- `get_food_nutrients(fdc_id, nutrient_ids)` from `server.py`. -/
def get_food_nutrients (apiKey : Option String) (net : FdcRequest → NetResult)
    (fdc_id : Int) (nutrient_ids : Option String) : String × List FdcRequest :=
  if optStrTruthy nutrient_ids = true then
    match parseIntList (nutrient_ids.getD "") with
    | none => ("Invalid nutrient IDs. Provide comma-separated numbers (e.g., \x27203,204,208\x27)", [])
    | some ids =>
        nutrientsRun apiKey net fdc_id
          [("nutrients", String.intercalate "," (ids.map toString))]
  else nutrientsRun apiKey net fdc_id []

/-- One `=== description (ID: id) ===` block per food, each listing the
positive amounts among its first 8 nutrient entries. -/
def compareBlocks : List JVal → String
  | [] => ""
  | f :: fs =>
      "=== " ++ pyStr (jGetD f "description" (.jstr "Unknown")) ++
      " (ID: " ++ pyStr (jGetD f "fdcId" .jnull) ++ ") ===\n" ++
      (if jTruthy (jGetD f "foodNutrients" .jnull) = true
       then nutrientLines "  " ((asArr (jGetD f "foodNutrients" .jnull)).take 8) else "") ++
      "\n" ++ compareBlocks fs

/-- `compare_foods` after input validation: POST `foods`, branch on the
error marker, then the per-food comparison blocks. -/
def compareRun (apiKey : Option String) (net : FdcRequest → NetResult)
    (request_data : List (String × JVal)) : String × List FdcRequest :=
  let r := make_fdc_request apiKey net "foods" "POST" [] (some (.jobj request_data))
  let result := r.1
  if jTruthy result = false ∨ errKeyIn result = true then
    ("Failed to compare foods: " ++ pyStr (jGetD result "error" (.jstr "Unknown error")), r.2)
  else
    let foods := match result with | .jarr xs => xs | _ => []
    if foods.isEmpty = true then ("No food data found for the provided IDs.", r.2)
    else ("Food Comparison:\n\n" ++ compareBlocks foods, r.2)

/-- `compare_foods(fdc_ids, nutrient_ids)` from `server.py`. -/
def compare_foods (apiKey : Option String) (net : FdcRequest → NetResult)
    (fdc_ids : String) (nutrient_ids : Option String) : String × List FdcRequest :=
  match parseIntList fdc_ids with
  | none => ("Invalid FDC IDs. Provide comma-separated numbers (e.g., \x27123456,789012\x27)", [])
  | some ids =>
    if 5 < ids.length then ("Maximum 5 foods can be compared at once.", [])
    else
      let fdcIdsField : List (String × JVal) :=
        [("fdcIds", .jarr (ids.map (fun i => .jnum (DecNum.ofInt i))))]
      if optStrTruthy nutrient_ids = true then
        match parseIntList (nutrient_ids.getD "") with
        | none => ("Invalid nutrient IDs. Provide comma-separated numbers.", [])
        | some nuts =>
            compareRun apiKey net
              (fdcIdsField ++ [("nutrients", .jarr (nuts.map (fun i => .jnum (DecNum.ofInt i))))])
      else compareRun apiKey net fdcIdsField

/-! ## Shared helpers for the theorems -/

/-- A network oracle that always answers 200 with an empty object:
used to exhibit that a request was (or was not) issued. -/
def okNet : FdcRequest → NetResult := fun _ => .response 200 "" (.jobj [])

/-- Python `"".join`: concatenation of a list of strings. -/
def strJoin : List String → String
  | [] => ""
  | s :: rest => s ++ strJoin rest

theorem strContains_appl (s t p : String) (h : strContains s p) : strContains (s ++ t) p := by
  obtain ⟨a, b, hab⟩ := h
  exact ⟨a, b ++ t.data, by rw [String.data_append, ← hab]; simp [List.append_assoc]⟩

theorem strContains_appr (s t p : String) (h : strContains t p) : strContains (s ++ t) p := by
  obtain ⟨a, b, hab⟩ := h
  exact ⟨s.data ++ a, b, by rw [String.data_append, ← hab]; simp [List.append_assoc]⟩

/-- Whatever the oracle answers, `dispatch` issues exactly the request
it was given. -/
theorem mem_dispatch (net : FdcRequest → NetResult) (req₀ req : FdcRequest)
    (h : req ∈ (dispatch net req₀).2) : req = req₀ := by
  unfold dispatch at h
  cases hn : net req₀ <;> simp only [hn] at h
  · split at h <;> simpa using h
  · simpa using h

/-- Every request a POST mediator call issues carries the JSON body the
caller supplied. -/
theorem make_fdc_post_body (apiKey : Option String) (net : FdcRequest → NetResult)
    (ep : String) (ps : List (String × String)) (d : Option JVal) (req : FdcRequest)
    (h : req ∈ (make_fdc_request apiKey net ep "POST" ps d).2) : req.body = d := by
  unfold make_fdc_request at h
  by_cases hk : optStrTruthy apiKey = false
  · rw [if_pos hk] at h; simp at h
  · rw [if_neg hk] at h
    rw [if_neg (by decide : ¬ (pyUpper "POST" = "GET")),
        if_pos (by decide : pyUpper "POST" = "POST")] at h
    rw [mem_dispatch _ _ _ h]

/-- `searchRun` returns the mediator's trace unchanged. -/
theorem searchRun_trace (apiKey : Option String) (net : FdcRequest → NetResult)
    (sd : List (String × JVal)) :
    (searchRun apiKey net sd).2 =
      (make_fdc_request apiKey net "foods/search" "POST" [] (some (.jobj sd))).2 := by
  simp only [searchRun]
  split
  · rfl
  · split <;> rfl

/-! ## C9: the formatters are deterministic pure functions -/

/-- C9: both formatters are deterministic pure functions — in the
embedding they depend on nothing but their input record, so two calls
on the same record produce byte-identical output strings. -/
theorem c9_formatters_deterministic (a b : JVal) (h : a = b) :
    format_food_summary a = format_food_summary b ∧
    format_food_details a = format_food_details b := by
  subst h
  exact ⟨rfl, rfl⟩

theorem c9_witness :
    format_food_summary (.jobj [("description", .jstr "Oats")]) =
      format_food_summary (.jobj [("description", .jstr "Oats")]) ∧
    format_food_details (.jobj [("description", .jstr "Oats")]) =
      format_food_details (.jobj [("description", .jstr "Oats")]) :=
  c9_formatters_deterministic (.jobj [("description", .jstr "Oats")])
    (.jobj [("description", .jstr "Oats")]) rfl

/-! ## C6: `compare_foods` caps the comparison at 5 foods -/

/-- C6: whenever `fdc_ids` parses to more than 5 comma-separated
integers, `compare_foods` returns the "Maximum 5 foods" message and
issues no network request. -/
theorem c6_compare_foods_max_five (apiKey : Option String) (net : FdcRequest → NetResult)
    (fdc_ids : String) (nutrient_ids : Option String) (ids : List Int)
    (hp : parseIntList fdc_ids = some ids) (hlen : 5 < ids.length) :
    compare_foods apiKey net fdc_ids nutrient_ids =
      ("Maximum 5 foods can be compared at once.", []) := by
  unfold compare_foods
  rw [hp]
  simp only [if_pos hlen]

set_option maxRecDepth 4000 in
theorem c6_witness :
    compare_foods (some "k") okNet "1,2,3,4,5,6" none =
      ("Maximum 5 foods can be compared at once.", []) :=
  c6_compare_foods_max_five (some "k") okNet "1,2,3,4,5,6" none
    [1, 2, 3, 4, 5, 6] (by decide) (by decide)

/-! ## C8: the mediator rejects methods other than GET and POST -/

/-- C8 counterexample: the claim reads "a method value other than GET
or POST yields an error result and no network request", but the code
uppercases the method first: `"get"` is a value other than `"GET"` and
`"POST"`, yet with a credential present the mediator issues a request
(trace length 1) instead of returning an error. -/
theorem c8_cex_lowercase_get_is_sent :
    ("get" ≠ "GET" ∧ "get" ≠ "POST") ∧
    ((make_fdc_request (some "k") okNet "foods" "get" [] none).2).length = 1 :=
  ⟨⟨by decide, by decide⟩, rfl⟩

/-- C8 (amended): whenever the uppercased method is neither `GET` nor
`POST`, the mediator issues no network request, and — when the
credential is present — returns the error marker naming the
unsupported method (with the credential absent it returns the missing
key error marker instead, still without any request). -/
theorem c8_unsupported_method_no_request (apiKey : Option String)
    (net : FdcRequest → NetResult) (endpoint method : String)
    (params : List (String × String)) (data : Option JVal)
    (h1 : pyUpper method ≠ "GET") (h2 : pyUpper method ≠ "POST") :
    (make_fdc_request apiKey net endpoint method params data).2 = [] ∧
    (optStrTruthy apiKey = true →
      (make_fdc_request apiKey net endpoint method params data).1 =
        errObj ("Unsupported HTTP method: " ++ method)) := by
  unfold make_fdc_request
  by_cases hk : optStrTruthy apiKey = false
  · rw [if_pos hk]
    exact ⟨rfl, fun ht => absurd hk (by simp [ht])⟩
  · rw [if_neg hk, if_neg h1, if_neg h2]
    exact ⟨rfl, fun _ => rfl⟩

theorem c8_witness :
    (make_fdc_request (some "k") okNet "foods" "PATCH" [] none).2 = [] ∧
    (optStrTruthy (some "k") = true →
      (make_fdc_request (some "k") okNet "foods" "PATCH" [] none).1 =
        errObj ("Unsupported HTTP method: " ++ "PATCH")) :=
  c8_unsupported_method_no_request (some "k") okNet "foods" "PATCH" [] none
    (by decide) (by decide)

/-! ## C5: `search_foods` rejects unknown data types -/

/-- C5 counterexample: the claim reads "whenever `data_type` is given
and is not one of the 5 known values, the handler returns the message
listing the valid options and the mediator is never invoked"; but the
code guards the check with Python truthiness, so the given — and
invalid — value `""` skips validation and the mediator is invoked
(trace length 1) without the validation message being returned. -/
theorem c5_cex_empty_data_type_skips_validation :
    "" ∉ valid_types ∧
    ((search_foods (some "k") okNet "apple" (some "") 25).2).length = 1 ∧
    (search_foods (some "k") okNet "apple" (some "") 25).1 ≠ invalidDataTypeMsg := by
  refine ⟨by decide, rfl, by decide⟩

/-- C5 (amended): whenever `data_type` is given, non-empty and not one
of the 5 known values, `search_foods` returns the message listing the
5 valid options and issues no network request. -/
theorem c5_invalid_data_type_no_network (apiKey : Option String)
    (net : FdcRequest → NetResult) (query dt : String) (page_size : Int)
    (hne : dt ≠ "") (hinv : dt ∉ valid_types) :
    search_foods apiKey net query (some dt) page_size = (invalidDataTypeMsg, []) := by
  unfold search_foods
  have ht : optStrTruthy (some dt) = true := by simp [optStrTruthy, hne]
  rw [if_pos ht, if_neg (by simpa using hinv)]

theorem c5_witness :
    search_foods (some "k") okNet "apple" (some "Bogus") 25 = (invalidDataTypeMsg, []) :=
  c5_invalid_data_type_no_network (some "k") okNet "apple" "Bogus" 25
    (by decide) (by decide)

/-! ## C1: a missing credential short-circuits every data fetch -/

theorem searchRun_noKey (net : FdcRequest → NetResult) (sd : List (String × JVal)) :
    searchRun none net sd =
      ("Search failed: API key not set. Use set_api_key tool first.", []) := rfl

theorem nutrientsRun_noKey (net : FdcRequest → NetResult) (fid : Int)
    (ps : List (String × String)) :
    nutrientsRun none net fid ps =
      ("Failed to get nutrient data: API key not set. Use set_api_key tool first.", []) := rfl

theorem compareRun_noKey (net : FdcRequest → NetResult) (rd : List (String × JVal)) :
    compareRun none net rd =
      ("Failed to compare foods: API key not set. Use set_api_key tool first.", []) := rfl

set_option maxRecDepth 8000 in
/-- C1 counterexample: the claim reads "if the credential is absent
then the handler returns a text result containing `API key not set`";
but input validation runs before the mediator, so with the credential
absent and an invalid `data_type` the handler returns the validation
message, which does not contain `API key not set`. -/
theorem c1_cex_validation_precedes_key_check :
    (search_foods none okNet "apple" (some "Bogus") 25).1 = invalidDataTypeMsg ∧
    ¬ strContains (search_foods none okNet "apple" (some "Bogus") 25).1 "API key not set" :=
  ⟨rfl, by decide⟩

/-- C1 (amended): with the credential absent, every data-fetching
handler whose arguments pass its own input validation returns the
operation's failure text — which embeds `API key not set` — and issues
zero network calls. -/
theorem c1_no_key_error_and_no_network :
    (∀ (net : FdcRequest → NetResult) (query : String) (dt : Option String) (n : Int),
       (optStrTruthy dt = true → dt.getD "" ∈ valid_types) →
       search_foods none net query dt n =
         ("Search failed: API key not set. Use set_api_key tool first.", [])) ∧
    (∀ (net : FdcRequest → NetResult) (fid : Int),
       get_food_details none net fid =
         ("Failed to get food details: API key not set. Use set_api_key tool first.", [])) ∧
    (∀ (net : FdcRequest → NetResult) (fid : Int) (nids : Option String),
       (optStrTruthy nids = true → parseIntList (nids.getD "") ≠ none) →
       get_food_nutrients none net fid nids =
         ("Failed to get nutrient data: API key not set. Use set_api_key tool first.", [])) ∧
    (∀ (net : FdcRequest → NetResult) (s : String) (nids : Option String) (ids : List Int),
       parseIntList s = some ids → ids.length ≤ 5 →
       (optStrTruthy nids = true → parseIntList (nids.getD "") ≠ none) →
       compare_foods none net s nids =
         ("Failed to compare foods: API key not set. Use set_api_key tool first.", [])) := by
  refine ⟨?_, ?_, ?_, ?_⟩
  · intro net query dt n hdt
    unfold search_foods
    by_cases ht : optStrTruthy dt = true
    · rw [if_pos ht, if_pos (hdt ht)]
      exact searchRun_noKey net _
    · rw [if_neg ht]
      exact searchRun_noKey net _
  · intro net fid
    rfl
  · intro net fid nids hn
    unfold get_food_nutrients
    by_cases ht : optStrTruthy nids = true
    · rw [if_pos ht]
      cases hp : parseIntList (nids.getD "") with
      | none => exact absurd hp (hn ht)
      | some ids => exact nutrientsRun_noKey net fid _
    · rw [if_neg ht]
      exact nutrientsRun_noKey net fid _
  · intro net s nids ids hp hlen hn
    unfold compare_foods
    simp only [hp]
    rw [if_neg (by omega : ¬ 5 < ids.length)]
    by_cases ht : optStrTruthy nids = true
    · cases hq : parseIntList (nids.getD "") with
      | none => exact absurd hq (hn ht)
      | some nuts => simp [ht, compareRun_noKey]
    · simp [ht, compareRun_noKey]

set_option maxRecDepth 4000 in
theorem c1_witness :
    search_foods none okNet "apple" none 25 =
      ("Search failed: API key not set. Use set_api_key tool first.", []) ∧
    get_food_details none okNet 7 =
      ("Failed to get food details: API key not set. Use set_api_key tool first.", []) ∧
    get_food_nutrients none okNet 7 (some "203,204") =
      ("Failed to get nutrient data: API key not set. Use set_api_key tool first.", []) ∧
    compare_foods none okNet "1,2" none =
      ("Failed to compare foods: API key not set. Use set_api_key tool first.", []) :=
  ⟨c1_no_key_error_and_no_network.1 okNet "apple" none 25
     (fun h => absurd h (by decide)),
   c1_no_key_error_and_no_network.2.1 okNet 7,
   c1_no_key_error_and_no_network.2.2.1 okNet 7 (some "203,204")
     (fun _ => by decide),
   c1_no_key_error_and_no_network.2.2.2 okNet "1,2" none [1, 2]
     (by decide) (by decide) (fun h => absurd h (by decide))⟩

/-! ## C7: malformed comma-separated numeric arguments -/

/-- C7 counterexample: the claim reads "if the argument is given and
any comma-separated piece does not parse as an integer, the handler
returns the validation message and the mediator is never invoked"; the
given value `""` has the single piece `""`, which does not parse, yet
Python truthiness skips the validation: the mediator is invoked (trace
length 1) and no validation message is returned. -/
theorem c7_cex_empty_nutrient_ids_skips_validation :
    parseIntList "" = none ∧
    ((get_food_nutrients (some "k") okNet 7 (some "")).2).length = 1 ∧
    (get_food_nutrients (some "k") okNet 7 (some "")).1 ≠
      "Invalid nutrient IDs. Provide comma-separated numbers (e.g., \x27203,204,208\x27)" :=
  ⟨rfl, rfl, by decide⟩

/-- C7 (amended): a given, non-empty comma-separated numeric argument
that fails integer parsing makes the handler return its validation
message with no network call — for `get_food_nutrients`'s
`nutrient_ids`, `compare_foods`'s `fdc_ids` (here even the empty
string is rejected, since that argument is parsed unconditionally),
and `compare_foods`'s `nutrient_ids`. -/
theorem c7_malformed_int_list_no_network :
    (∀ (apiKey : Option String) (net : FdcRequest → NetResult) (fid : Int) (s : String),
       s ≠ "" → parseIntList s = none →
       get_food_nutrients apiKey net fid (some s) =
         ("Invalid nutrient IDs. Provide comma-separated numbers (e.g., \x27203,204,208\x27)", [])) ∧
    (∀ (apiKey : Option String) (net : FdcRequest → NetResult) (s : String)
       (nids : Option String),
       parseIntList s = none →
       compare_foods apiKey net s nids =
         ("Invalid FDC IDs. Provide comma-separated numbers (e.g., \x27123456,789012\x27)", [])) ∧
    (∀ (apiKey : Option String) (net : FdcRequest → NetResult) (fids : String)
       (ids : List Int) (s : String),
       parseIntList fids = some ids → ids.length ≤ 5 → s ≠ "" → parseIntList s = none →
       compare_foods apiKey net fids (some s) =
         ("Invalid nutrient IDs. Provide comma-separated numbers.", [])) := by
  refine ⟨?_, ?_, ?_⟩
  · intro apiKey net fid s hs hp
    unfold get_food_nutrients
    rw [if_pos (by simp [optStrTruthy, hs] : optStrTruthy (some s) = true)]
    rw [show (some s).getD "" = s from rfl, hp]
  · intro apiKey net s nids hp
    unfold compare_foods
    rw [hp]
  · intro apiKey net fids ids s hp hlen hs hq
    unfold compare_foods
    simp only [hp]
    rw [if_neg (by omega : ¬ 5 < ids.length)]
    have ht : optStrTruthy (some s) = true := by simp [optStrTruthy, hs]
    simp [ht, hq]

theorem c7_witness :
    get_food_nutrients (some "k") okNet 7 (some "abc") =
      ("Invalid nutrient IDs. Provide comma-separated numbers (e.g., \x27203,204,208\x27)", []) ∧
    compare_foods (some "k") okNet "x,y" none =
      ("Invalid FDC IDs. Provide comma-separated numbers (e.g., \x27123456,789012\x27)", []) ∧
    compare_foods (some "k") okNet "1" (some "zz") =
      ("Invalid nutrient IDs. Provide comma-separated numbers.", []) :=
  ⟨c7_malformed_int_list_no_network.1 (some "k") okNet 7 "abc" (by decide) (by decide),
   c7_malformed_int_list_no_network.2.1 (some "k") okNet "x,y" none (by decide),
   c7_malformed_int_list_no_network.2.2 (some "k") okNet "1" [1] "zz"
     (by decide) (by decide) (by decide) (by decide)⟩

/-! ## C4: `search_foods` clamps `pageSize` to 50 -/

/-- C4: every request `search_foods` puts on the wire carries a JSON
body whose `pageSize` field is `min(page_size, 50)`; in particular,
for `page_size > 50` the transmitted value is 50. -/
theorem c4_page_size_clamped (apiKey : Option String) (net : FdcRequest → NetResult)
    (query : String) (dt : Option String) (page_size : Int) (req : FdcRequest)
    (h : req ∈ (search_foods apiKey net query dt page_size).2) :
    (∃ sd, req.body = some (.jobj sd) ∧
       jLookup sd "pageSize" = some (.jnum (DecNum.ofInt (min page_size 50)))) ∧
    (50 < page_size → DecNum.ofInt (min page_size 50) = DecNum.ofInt 50) := by
  refine ⟨?_, fun hgt => by rw [min_eq_right (by omega : (50 : Int) ≤ page_size)]⟩
  unfold search_foods at h
  by_cases ht : optStrTruthy dt = true
  · rw [if_pos ht] at h
    by_cases hv : dt.getD "" ∈ valid_types
    · rw [if_pos hv] at h
      rw [searchRun_trace] at h
      exact ⟨_, make_fdc_post_body _ _ _ _ _ _ h, rfl⟩
    · rw [if_neg hv] at h
      simp at h
  · rw [if_neg ht] at h
    rw [searchRun_trace] at h
    exact ⟨_, make_fdc_post_body _ _ _ _ _ _ h, rfl⟩

/-- The single request the clamping witness call issues. -/
def c4req : FdcRequest :=
  { url := "https://api.nal.usda.gov/fdc/v1/foods/search"
    method := "POST"
    params := [("api_key", "k")]
    body := some (.jobj
      [("query", .jstr "apple"),
       ("pageSize", .jnum (DecNum.ofInt 50)),
       ("pageNumber", .jnum (DecNum.ofInt 1))]) }

set_option maxRecDepth 4000 in
theorem c4_witness :
    (∃ sd, c4req.body = some (.jobj sd) ∧
       jLookup sd "pageSize" = some (.jnum (DecNum.ofInt (min (100 : Int) 50)))) ∧
    (50 < (100 : Int) → DecNum.ofInt (min (100 : Int) 50) = DecNum.ofInt 50) :=
  c4_page_size_clamped (some "k") okNet "apple" none 100 c4req
    (by rw [show (search_foods (some "k") okNet "apple" none 100).2 = [c4req] from rfl]
        exact List.mem_singleton.mpr rfl)

/-! ## C2: the formatters are total and render placeholders -/

/-- C2: both formatters are total over food records (they are plain
functions of the record in this embedding, so no input can raise), and
every field that is rendered unconditionally renders its literal
placeholder when missing: `Unknown` for description and data type,
`N/A` for identifier, published date and category, `Generic` for a
missing brand in the summary. -/
theorem c2_missing_fields_render_placeholders (fs : List (String × JVal)) :
    (jLookup fs "description" = none →
       strContains (format_food_summary (.jobj fs)) "Food: Unknown" ∧
       strContains (format_food_details (.jobj fs)) "Food: Unknown") ∧
    (jLookup fs "fdcId" = none →
       strContains (format_food_summary (.jobj fs)) "FDC ID: N/A" ∧
       strContains (format_food_details (.jobj fs)) "FDC ID: N/A") ∧
    (jLookup fs "dataType" = none →
       strContains (format_food_summary (.jobj fs)) "Data Type: Unknown" ∧
       strContains (format_food_details (.jobj fs)) "Data Type: Unknown") ∧
    (jLookup fs "brandOwner" = none →
       strContains (format_food_summary (.jobj fs)) "Brand: Generic") ∧
    (jLookup fs "publishedDate" = none →
       strContains (format_food_summary (.jobj fs)) "Published: N/A") ∧
    (jLookup fs "foodCategory" = none →
       strContains (format_food_details (.jobj fs)) "Category: N/A") := by
  refine ⟨fun h => ⟨?_, ?_⟩, fun h => ⟨?_, ?_⟩, fun h => ⟨?_, ?_⟩, fun h => ?_,
          fun h => ?_, fun h => ?_⟩
  · simp only [format_food_summary, jGetD, jGet, h, Option.getD_none, pyStr]
    iterate 8 apply strContains_appl
    decide
  · simp only [format_food_details, detailsHeader, jGetD, jGet, h, Option.getD_none, pyStr]
    iterate 10 apply strContains_appl
    decide
  · simp only [format_food_summary, jGetD, jGet, h, Option.getD_none, pyStr]
    iterate 6 apply strContains_appl
    rw [String.append_assoc]
    apply strContains_appr
    decide
  · simp only [format_food_details, detailsHeader, jGetD, jGet, h, Option.getD_none, pyStr]
    iterate 8 apply strContains_appl
    rw [String.append_assoc]
    apply strContains_appr
    decide
  · simp only [format_food_summary, jGetD, jGet, h, Option.getD_none, pyStr]
    iterate 4 apply strContains_appl
    rw [String.append_assoc]
    apply strContains_appr
    decide
  · simp only [format_food_details, detailsHeader, jGetD, jGet, h, Option.getD_none, pyStr]
    iterate 6 apply strContains_appl
    rw [String.append_assoc]
    apply strContains_appr
    decide
  · simp [format_food_summary, jGetD, jGet, h, jTruthy]
    iterate 2 apply strContains_appl
    rw [String.append_assoc]
    apply strContains_appr
    decide
  · simp only [format_food_summary, jGetD, jGet, h, Option.getD_none, pyStr]
    rw [String.append_assoc]
    apply strContains_appr
    decide
  · simp only [format_food_details, detailsHeader, jGetD, jGet, h, Option.getD_none,
               jLookup, pyStr]
    iterate 4 apply strContains_appl
    rw [String.append_assoc]
    apply strContains_appr
    decide

theorem c2_witness :
    strContains (format_food_summary (.jobj [])) "Food: Unknown" ∧
    strContains (format_food_summary (.jobj [])) "FDC ID: N/A" ∧
    strContains (format_food_summary (.jobj [])) "Data Type: Unknown" ∧
    strContains (format_food_summary (.jobj [])) "Brand: Generic" ∧
    strContains (format_food_summary (.jobj [])) "Published: N/A" ∧
    strContains (format_food_details (.jobj [])) "Food: Unknown" ∧
    strContains (format_food_details (.jobj [])) "Category: N/A" :=
  ⟨((c2_missing_fields_render_placeholders []).1 rfl).1,
   ((c2_missing_fields_render_placeholders []).2.1 rfl).1,
   ((c2_missing_fields_render_placeholders []).2.2.1 rfl).1,
   (c2_missing_fields_render_placeholders []).2.2.2.1 rfl,
   (c2_missing_fields_render_placeholders []).2.2.2.2.1 rfl,
   ((c2_missing_fields_render_placeholders []).1 rfl).2,
   (c2_missing_fields_render_placeholders []).2.2.2.2.2 rfl⟩

/-! ## C3: the detail formatter's nutrition section -/

/-- The nutrient loop renders exactly the entries whose amount is
truthy and positive, in order, one line each. -/
theorem nutrientLines_filter (ind : String) (l : List JVal) :
    nutrientLines ind l =
      strJoin ((l.filter (fun n => amountPos (nutrAmount n))).map (nutrientLine ind)) := by
  induction l with
  | nil => rfl
  | cons n ns ih =>
      unfold nutrientLines
      rw [ih]
      cases hc : amountPos (nutrAmount n)
      · rw [if_neg (by simp : ¬ (false = true)),
            show List.filter (fun m => amountPos (nutrAmount m)) (n :: ns) =
              List.filter (fun m => amountPos (nutrAmount m)) ns from by
                simp [List.filter_cons, hc]]
        rfl
      · rw [if_pos (rfl : (true = true)),
            show List.filter (fun m => amountPos (nutrAmount m)) (n :: ns) =
              n :: List.filter (fun m => amountPos (nutrAmount m)) ns from by
                simp [List.filter_cons, hc]]
        rfl

/-- C3: for a record whose `foodNutrients` is a non-empty sequence,
the detail output is the header followed by the nutrition banner and
one `  name: amount unit` line for each entry among the first 10 whose
amount is truthy and strictly positive — entries with amount zero,
negative, or absent (absent defaults to 0) are excluded. -/
theorem c3_detail_nutrition_section (fs : List (String × JVal)) (nuts : List JVal)
    (h : jLookup fs "foodNutrients" = some (.jarr nuts)) (hne : nuts ≠ []) :
    format_food_details (.jobj fs) =
      detailsHeader (.jobj fs) ++ "\nNutritional Information (per 100g):\n" ++
        strJoin (((nuts.take 10).filter (fun n => amountPos (nutrAmount n))).map
          (nutrientLine "  ")) := by
  have ht : jTruthy (jGetD (.jobj fs) "foodNutrients" .jnull) = true := by
    simp [jGetD, jGet, h, jTruthy, hne]
  unfold format_food_details
  rw [if_pos ht]
  have ha : asArr (jGetD (.jobj fs) "foodNutrients" .jnull) = nuts := by
    simp [jGetD, jGet, h, asArr]
  rw [ha, nutrientLines_filter, ← String.append_assoc]

/-- The spec's mocked record: `Protein` with amount 0, `Fat` with
amount 5.2. -/
def c3Food : List (String × JVal) :=
  [("description", .jstr "Cheddar"),
   ("fdcId", .jnum (DecNum.ofInt 173410)),
   ("dataType", .jstr "Branded"),
   ("foodNutrients", .jarr
     [.jobj [("nutrient", .jobj [("name", .jstr "Protein"), ("unitName", .jstr "g")]),
             ("amount", .jnum ⟨0, 0⟩)],
      .jobj [("nutrient", .jobj [("name", .jstr "Fat"), ("unitName", .jstr "g")]),
             ("amount", .jnum ⟨52, 1⟩)]])]

set_option maxRecDepth 8000 in
theorem c3_witness :
    format_food_details (.jobj c3Food) =
      detailsHeader (.jobj c3Food) ++ "\nNutritional Information (per 100g):\n" ++
        strJoin ((((asArr (jGetD (.jobj c3Food) "foodNutrients" .jnull)).take 10).filter
          (fun n => amountPos (nutrAmount n))).map (nutrientLine "  ")) ∧
    strContains (format_food_details (.jobj c3Food)) "Fat: 5.2 g" ∧
    ¬ strContains (format_food_details (.jobj c3Food)) "Protein" :=
  ⟨by
     have := c3_detail_nutrition_section c3Food
       (asArr (jGetD (.jobj c3Food) "foodNutrients" .jnull)) rfl (fun hh => nomatch hh)
     exact this,
   by decide, by decide⟩

/-! ## C10: a top-level `error` key is always treated as failure -/

/-- With the credential present and a constant oracle answering a 2xx
response, the mediator returns the response payload unchanged. -/
theorem make_fdc_const_result (k : String) (hk : k ≠ "") (st : Nat) (txt : String)
    (payload : JVal) (h1 : 200 ≤ st) (h2 : st < 300) (ep m : String)
    (ps : List (String × String)) (d : Option JVal)
    (hm : pyUpper m = "GET" ∨ pyUpper m = "POST") :
    (make_fdc_request (some k) (fun _ => .response st txt payload) ep m ps d).1 =
      payload := by
  have hkt : ¬ (optStrTruthy (some k) = false) := by simp [optStrTruthy, hk]
  unfold make_fdc_request
  rw [if_neg hkt]
  rcases hm with hm | hm
  · rw [if_pos hm]
    simp only [dispatch]
    rw [if_pos ⟨h1, h2⟩]
  · rw [if_neg (by rw [hm]; decide), if_pos hm]
    simp only [dispatch]
    rw [if_pos ⟨h1, h2⟩]

theorem searchRun_error_result (k : String) (hk : k ≠ "") (st : Nat) (txt : String)
    (fields : List (String × JVal)) (h1 : 200 ≤ st) (h2 : st < 300)
    (herr : errKeyIn (.jobj fields) = true) (sd : List (String × JVal)) :
    (searchRun (some k) (fun _ => .response st txt (.jobj fields)) sd).1 =
      "Search failed: " ++ pyStr (jGetD (.jobj fields) "error" (.jstr "Unknown error")) := by
  simp only [searchRun]
  rw [make_fdc_const_result k hk st txt (.jobj fields) h1 h2 "foods/search" "POST" []
        (some (.jobj sd)) (Or.inr rfl)]
  rw [if_pos (Or.inr herr)]

theorem nutrientsRun_error_result (k : String) (hk : k ≠ "") (st : Nat) (txt : String)
    (fields : List (String × JVal)) (h1 : 200 ≤ st) (h2 : st < 300)
    (herr : errKeyIn (.jobj fields) = true) (fid : Int) (ps : List (String × String)) :
    (nutrientsRun (some k) (fun _ => .response st txt (.jobj fields)) fid ps).1 =
      "Failed to get nutrient data: " ++
        pyStr (jGetD (.jobj fields) "error" (.jstr "Unknown error")) := by
  simp only [nutrientsRun]
  rw [make_fdc_const_result k hk st txt (.jobj fields) h1 h2 ("food/" ++ toString fid)
        "GET" ps none (Or.inl rfl)]
  rw [if_pos (Or.inr herr)]

theorem compareRun_error_result (k : String) (hk : k ≠ "") (st : Nat) (txt : String)
    (fields : List (String × JVal)) (h1 : 200 ≤ st) (h2 : st < 300)
    (herr : errKeyIn (.jobj fields) = true) (rd : List (String × JVal)) :
    (compareRun (some k) (fun _ => .response st txt (.jobj fields)) rd).1 =
      "Failed to compare foods: " ++
        pyStr (jGetD (.jobj fields) "error" (.jstr "Unknown error")) := by
  simp only [compareRun]
  rw [make_fdc_const_result k hk st txt (.jobj fields) h1 h2 "foods" "POST" []
        (some (.jobj rd)) (Or.inr rfl)]
  rw [if_pos (Or.inr herr)]

/-- C10 (implicit behaviour, confirmed): whenever the upstream answers
2xx with a mapping payload that has a top-level `error` key — even a
payload that also carries legitimate data — every handler (called with
arguments passing its validation) returns its failure-prefixed text
embedding the value under `error`, instead of formatting the payload
as data. -/
theorem c10_error_key_means_failure (k : String) (hk : k ≠ "") (st : Nat) (txt : String)
    (fields : List (String × JVal)) (h1 : 200 ≤ st) (h2 : st < 300)
    (herr : errKeyIn (.jobj fields) = true) :
    (∀ (query : String) (dt : Option String) (n : Int),
       (optStrTruthy dt = true → dt.getD "" ∈ valid_types) →
       (search_foods (some k) (fun _ => .response st txt (.jobj fields)) query dt n).1 =
         "Search failed: " ++ pyStr (jGetD (.jobj fields) "error" (.jstr "Unknown error"))) ∧
    (∀ fid : Int,
       (get_food_details (some k) (fun _ => .response st txt (.jobj fields)) fid).1 =
         "Failed to get food details: " ++
           pyStr (jGetD (.jobj fields) "error" (.jstr "Unknown error"))) ∧
    (∀ (fid : Int) (nids : Option String),
       (optStrTruthy nids = true → parseIntList (nids.getD "") ≠ none) →
       (get_food_nutrients (some k) (fun _ => .response st txt (.jobj fields)) fid nids).1 =
         "Failed to get nutrient data: " ++
           pyStr (jGetD (.jobj fields) "error" (.jstr "Unknown error"))) ∧
    (∀ (s : String) (nids : Option String) (ids : List Int),
       parseIntList s = some ids → ids.length ≤ 5 →
       (optStrTruthy nids = true → parseIntList (nids.getD "") ≠ none) →
       (compare_foods (some k) (fun _ => .response st txt (.jobj fields)) s nids).1 =
         "Failed to compare foods: " ++
           pyStr (jGetD (.jobj fields) "error" (.jstr "Unknown error"))) := by
  refine ⟨?_, ?_, ?_, ?_⟩
  · intro query dt n hdt
    unfold search_foods
    by_cases ht : optStrTruthy dt = true
    · rw [if_pos ht, if_pos (hdt ht)]
      exact searchRun_error_result k hk st txt fields h1 h2 herr _
    · rw [if_neg ht]
      exact searchRun_error_result k hk st txt fields h1 h2 herr _
  · intro fid
    simp only [get_food_details]
    rw [make_fdc_const_result k hk st txt (.jobj fields) h1 h2 ("food/" ++ toString fid)
          "GET" [] none (Or.inl rfl)]
    rw [if_pos (Or.inr herr)]
  · intro fid nids hn
    unfold get_food_nutrients
    by_cases ht : optStrTruthy nids = true
    · rw [if_pos ht]
      cases hp : parseIntList (nids.getD "") with
      | none => exact absurd hp (hn ht)
      | some ids => exact nutrientsRun_error_result k hk st txt fields h1 h2 herr fid _
    · rw [if_neg ht]
      exact nutrientsRun_error_result k hk st txt fields h1 h2 herr fid _
  · intro s nids ids hp hlen hn
    unfold compare_foods
    simp only [hp]
    rw [if_neg (by omega : ¬ 5 < ids.length)]
    by_cases ht : optStrTruthy nids = true
    · cases hq : parseIntList (nids.getD "") with
      | none => exact absurd hq (hn ht)
      | some nuts =>
          simp [ht, compareRun_error_result k hk st txt fields h1 h2 herr]
    · simp [ht, compareRun_error_result k hk st txt fields h1 h2 herr]

/-- A 2xx payload that carries both a legitimate `foods` array and a
top-level `error` field. -/
def c10Fields : List (String × JVal) :=
  [("error", .jstr "boom"), ("foods", .jarr [.jobj []])]

theorem c10_witness :
    (search_foods (some "k") (fun _ => .response 200 "" (.jobj c10Fields)) "apple" none 25).1 =
      "Search failed: " ++ pyStr (jGetD (.jobj c10Fields) "error" (.jstr "Unknown error")) ∧
    (get_food_details (some "k") (fun _ => .response 200 "" (.jobj c10Fields)) 7).1 =
      "Failed to get food details: " ++
        pyStr (jGetD (.jobj c10Fields) "error" (.jstr "Unknown error")) ∧
    (get_food_nutrients (some "k") (fun _ => .response 200 "" (.jobj c10Fields)) 7 none).1 =
      "Failed to get nutrient data: " ++
        pyStr (jGetD (.jobj c10Fields) "error" (.jstr "Unknown error")) ∧
    (compare_foods (some "k") (fun _ => .response 200 "" (.jobj c10Fields)) "1,2" none).1 =
      "Failed to compare foods: " ++
        pyStr (jGetD (.jobj c10Fields) "error" (.jstr "Unknown error")) :=
  ⟨(c10_error_key_means_failure "k" (by decide) 200 "" c10Fields (by decide) (by decide)
      (by decide)).1 "apple" none 25 (fun h => absurd h (by decide)),
   (c10_error_key_means_failure "k" (by decide) 200 "" c10Fields (by decide) (by decide)
      (by decide)).2.1 7,
   (c10_error_key_means_failure "k" (by decide) 200 "" c10Fields (by decide) (by decide)
      (by decide)).2.2.1 7 none (fun h => absurd h (by decide)),
   (c10_error_key_means_failure "k" (by decide) 200 "" c10Fields (by decide) (by decide)
      (by decide)).2.2.2 "1,2" none [1, 2] (by decide) (by decide)
      (fun h => absurd h (by decide))⟩

end FdcServer
